import Mathlib

/-
Shallow embedding of the background telemetry collector
(background_worker.py, windows_app.py).

The BackgroundWorker class keeps two in-memory event lists
(mouse_events, keyboard_events), appends to them from input-capture
callbacks, and a flush thread periodically POSTs both lists as one JSON
body and clears them only when the POST did not raise.

The data path (buffers, callbacks, one flush cycle) is embedded as pure
state-passing functions below.  Timestamps from time.time and screen
coordinates are carried opaquely; they are modelled as integers because
the code never computes with them, it only stores and serializes them.
-/

/-- A pointer event exactly as appended by on_move, on_click, on_scroll:
each constructor mirrors one of the dict literals in the source. -/
inductive MouseEvent where
  | move (x y : Int) (timestamp : Int)
  | click (x y : Int) (button : String) (pressed : Bool) (timestamp : Int)
  | scroll (x y dx dy : Int) (timestamp : Int)
deriving DecidableEq, Repr

/-- A key event exactly as appended by on_press and on_release.  The key
field is Option String because the code stores key.char verbatim, and for
key objects whose char attribute is None the stored value is None. -/
inductive KeyboardEvent where
  | press (key : Option String) (timestamp : Int)
  | release (key : Option String) (timestamp : Int)
deriving DecidableEq, Repr

/-- Model of a pynput key object as seen by on_press and on_release:
charAttr is none when the object has no char attribute (so reading
key.char raises AttributeError, as for special keys such as Key.shift),
and some v when the attribute is present with value v, where v itself is
none when the Python value is None.  The name field is str(key). -/
structure PKey where
  charAttr : Option (Option String)
  name : String
deriving DecidableEq, Repr

/-- The mutable state of a BackgroundWorker instance that the data path
touches: the constructor arguments (immutable after init) and the two
event buffers. -/
structure BackgroundWorker where
  session_id : String
  user_id : Int
  api_url : String
  mouse_events : List MouseEvent
  keyboard_events : List KeyboardEvent
deriving DecidableEq, Repr

/-- Default endpoint from the constructor signature. -/
def defaultApiUrl : String := "http://127.0.0.1:5000/api/background_data"

/-- Embeds BackgroundWorker.__init__: both buffers start empty. -/
def mkWorker (session_id : String) (user_id : Int) (api_url : String) :
    BackgroundWorker :=
  { session_id := session_id, user_id := user_id, api_url := api_url,
    mouse_events := [], keyboard_events := [] }

/-- Embeds on_move: append a move dict to mouse_events. -/
def on_move (x y ts : Int) (w : BackgroundWorker) : BackgroundWorker :=
  { w with mouse_events := w.mouse_events ++ [MouseEvent.move x y ts] }

/-- Embeds on_click: append a click dict to mouse_events. -/
def on_click (x y : Int) (button : String) (pressed : Bool) (ts : Int)
    (w : BackgroundWorker) : BackgroundWorker :=
  { w with mouse_events :=
      w.mouse_events ++ [MouseEvent.click x y button pressed ts] }

/-- Embeds on_scroll: append a scroll dict to mouse_events. -/
def on_scroll (x y dx dy ts : Int) (w : BackgroundWorker) :
    BackgroundWorker :=
  { w with mouse_events := w.mouse_events ++ [MouseEvent.scroll x y dx dy ts] }

/-- The key value the callbacks store: the try block reads key.char and
appends whatever it returns (even None); only when that read raises
AttributeError does the except block append str(key).  The branch is on
attribute presence, not on printability. -/
def keyOf (k : PKey) : Option String :=
  match k.charAttr with
  | some c => c
  | none => some k.name

/-- Embeds on_press: try key.char, on AttributeError use str(key). -/
def on_press (k : PKey) (ts : Int) (w : BackgroundWorker) : BackgroundWorker :=
  { w with keyboard_events :=
      w.keyboard_events ++ [KeyboardEvent.press (keyOf k) ts] }

/-- Embeds on_release: try key.char, on AttributeError use str(key). -/
def on_release (k : PKey) (ts : Int) (w : BackgroundWorker) :
    BackgroundWorker :=
  { w with keyboard_events :=
      w.keyboard_events ++ [KeyboardEvent.release (keyOf k) ts] }

/-- The JSON body assembled in send_data, with exactly the four keys of
the data_to_send dict literal, in source order. -/
structure Batch where
  session_id : String
  user_id : Int
  mouse_data : List MouseEvent
  keyboard_data : List KeyboardEvent
deriving DecidableEq, Repr

/-- Embeds the construction of data_to_send from the worker state. -/
def mkBatch (w : BackgroundWorker) : Batch :=
  { session_id := w.session_id, user_id := w.user_id,
    mouse_data := w.mouse_events, keyboard_data := w.keyboard_events }

/-- One iteration of the send_data loop body after the sleep, with the
network outcome made explicit: ok is true when requests.post returns and
false when it raises RequestException.  Returns the payload handed to
requests.post (none when the emptiness guard skips the POST) and the
worker state afterwards.  The two buffer attributes are reassigned to
empty lists only on the non-raising path, mirroring that the clears sit
after the post call inside the try block. -/
def flushCycle (ok : Bool) (w : BackgroundWorker) :
    Option Batch × BackgroundWorker :=
  if w.mouse_events = [] ∧ w.keyboard_events = [] then
    (none, w)
  else if ok then
    (some (mkBatch w), { w with mouse_events := [], keyboard_events := [] })
  else
    (some (mkBatch w), w)

/-
Trace semantics: an execution is a list of operations, each either one
capture callback or one wakeup of the send_data loop.  Each flush wakeup
carries the network outcome of its POST attempt.  The callbacks run on
listener threads and the flush on the data thread; the list order is the
interleaving order, with each flush cycle taken as one atomic step.
-/

/-- One operation on the shared worker state. -/
inductive Op where
  | move (x y ts : Int)
  | click (x y : Int) (button : String) (pressed : Bool) (ts : Int)
  | scroll (x y dx dy ts : Int)
  | press (k : PKey) (ts : Int)
  | release (k : PKey) (ts : Int)
  | flush (ok : Bool)
deriving DecidableEq, Repr

/-- Effect of one operation: the new state, plus the payload POSTed by a
flush wakeup together with its network outcome. -/
def step (w : BackgroundWorker) : Op → BackgroundWorker × Option (Batch × Bool)
  | Op.move x y ts => (on_move x y ts w, none)
  | Op.click x y b p ts => (on_click x y b p ts w, none)
  | Op.scroll x y dx dy ts => (on_scroll x y dx dy ts w, none)
  | Op.press k ts => (on_press k ts w, none)
  | Op.release k ts => (on_release k ts w, none)
  | Op.flush ok =>
      ((flushCycle ok w).2, (flushCycle ok w).1.map (fun b => (b, ok)))

/-- Run a whole trace, collecting every POSTed payload in order with its
outcome flag. -/
def run (w : BackgroundWorker) : List Op → BackgroundWorker × List (Batch × Bool)
  | [] => (w, [])
  | op :: ops =>
      match step w op with
      | (w', none) => run w' ops
      | (w', some pb) => ((run w' ops).1, pb :: (run w' ops).2)

/-- The pointer event that a capture operation appends, if any. -/
def opMouse : Op → Option MouseEvent
  | Op.move x y ts => some (MouseEvent.move x y ts)
  | Op.click x y b p ts => some (MouseEvent.click x y b p ts)
  | Op.scroll x y dx dy ts => some (MouseEvent.scroll x y dx dy ts)
  | _ => none

/-- The key event that a capture operation appends, if any; uses the same
keyOf normalization the callbacks use. -/
def opKey : Op → Option KeyboardEvent
  | Op.press k ts => some (KeyboardEvent.press (keyOf k) ts)
  | Op.release k ts => some (KeyboardEvent.release (keyOf k) ts)
  | _ => none

/-- All pointer events recorded by a trace, in capture order. -/
def recordedMouse (ops : List Op) : List MouseEvent := ops.filterMap opMouse

/-- All key events recorded by a trace, in capture order. -/
def recordedKeys (ops : List Op) : List KeyboardEvent := ops.filterMap opKey

/-- The payloads whose POST did not raise, in transmission order. -/
def successes (ps : List (Batch × Bool)) : List Batch :=
  (ps.filter (fun pb => pb.2)).map Prod.fst

/-
Timing model of the send_data loop and stop.  The loop body is
  while not stop_event.is_set: time.sleep(5); maybe post
so the thread observes the stop flag only at iteration boundaries:
time.sleep is not interruptible by threading.Event.set.  Measuring time
in milliseconds from the first check of the freshly started data thread,
the checks happen at 0, 5000, 10000, ... and the thread exits at the
first check at or after the instant the flag was set.  stop() sets the
flag and joins the thread, so it returns when the thread exits. -/

/-- Flush interval of the reference code, time.sleep(5), in ms. -/
def flushIntervalMs : Nat := 5000

/-- Iterate the loop from check time t with the stop flag set at time s:
exit at the current check if the flag is visible, else sleep one full
interval and check again.  Fuel bounds the iteration count; it is chosen
large enough below that the fuel never runs out before the exit check. -/
def loopExitFrom : Nat → Nat → Nat → Nat
  | 0, t, _ => t
  | fuel + 1, t, s => if s ≤ t then t else loopExitFrom fuel (t + flushIntervalMs) s

/-- Time at which the data thread exits when the stop flag is set at
time s (ms after the thread first checked the flag). -/
def threadExitTime (s : Nat) : Nat :=
  loopExitFrom (s / flushIntervalMs + 1) 0 s

/-- Delay between stop() setting the flag and stop() returning from the
join of the data thread. -/
def stopLatency (s : Nat) : Nat := threadExitTime s - s

/-
Lifecycle model of start and stop.  The listeners and the data thread
are threading.Thread objects: Thread.start raises RuntimeError when the
thread was already started, Thread.join on a finished thread returns at
once, and pynput Listener.stop on a non-running listener is a guarded
no-op.  The two listeners are created once in __init__ and reused, while
start() builds a fresh Thread for the flush loop on every call.  Each
lifecycle call returns the state reached together with true when it
completed normally and false when it raised. -/

/-- Thread and listener status of one BackgroundWorker instance. -/
structure LifeState where
  stopEventSet : Bool
  mouseStarted : Bool
  mouseRunning : Bool
  kbStarted : Bool
  kbRunning : Bool
  activeFlushThreads : Nat
  hasDataThread : Bool
deriving DecidableEq, Repr

/-- Lifecycle state right after __init__: stop event clear, listeners
constructed but not started, no data_thread attribute yet. -/
def newWorkerLife : LifeState :=
  { stopEventSet := false, mouseStarted := false, mouseRunning := false,
    kbStarted := false, kbRunning := false, activeFlushThreads := 0,
    hasDataThread := false }

/-- Embeds BackgroundWorker.start: clear the stop event, start both
listener threads, then create and start a fresh data thread.  Starting
an already-started listener thread raises RuntimeError, so a second call
fails there, after having already cleared the stop event. -/
def BWstart (s : LifeState) : LifeState × Bool :=
  let s1 := { s with stopEventSet := false }
  if s1.mouseStarted then (s1, false)
  else
    let s2 := { s1 with mouseStarted := true, mouseRunning := true }
    if s2.kbStarted then (s2, false)
    else
      let s3 := { s2 with kbStarted := true, kbRunning := true }
      ({ s3 with activeFlushThreads := s3.activeFlushThreads + 1,
                 hasDataThread := true }, true)

/-- Embeds BackgroundWorker.stop: set the stop event, stop both
listeners, then join self.data_thread.  When start() has never run, the
data_thread attribute does not exist and the join line raises
AttributeError; otherwise the join blocks until the flush thread has
observed the flag and exited, after which no flush thread is active. -/
def BWstop (s : LifeState) : LifeState × Bool :=
  let s1 := { s with stopEventSet := true }
  let s2 := { s1 with mouseRunning := false, kbRunning := false }
  if s2.hasDataThread then ({ s2 with activeFlushThreads := 0 }, true)
  else (s2, false)

/-- The part of WindowsApp state that guards the worker lifecycle: the
background_worker attribute, None until the first start signal. -/
structure WindowsAppState where
  backgroundWorker : Option LifeState
deriving DecidableEq, Repr

/-- Embeds WindowsApp.start_background_worker: when no worker exists,
construct one and start it; when one exists already, only print the
already-running notice.  Returns true when a worker was started. -/
def start_background_worker (a : WindowsAppState) : WindowsAppState × Bool :=
  match a.backgroundWorker with
  | none => ({ backgroundWorker := some (BWstart newWorkerLife).1 }, true)
  | some w => ({ backgroundWorker := some w }, false)

/-
JSON view of the transmitted body, following the json= argument of
requests.post: dicts become objects with keys in literal order, lists
become arrays, and a Python None key value becomes null. -/

/-- A JSON value. -/
inductive JVal where
  | s (v : String)
  | n (v : Int)
  | b (v : Bool)
  | null
  | arr (vs : List JVal)
  | obj (fields : List (String × JVal))
deriving Repr

/-- Serialization of the key field, which may be Python None. -/
def keyFieldJson : Option String → JVal
  | some v => JVal.s v
  | none => JVal.null

/-- Serialization of one pointer-event dict. -/
def mouseEventJson : MouseEvent → JVal
  | MouseEvent.move x y ts =>
      JVal.obj [("type", JVal.s "move"), ("x", JVal.n x), ("y", JVal.n y),
                ("timestamp", JVal.n ts)]
  | MouseEvent.click x y btn p ts =>
      JVal.obj [("type", JVal.s "click"), ("x", JVal.n x), ("y", JVal.n y),
                ("button", JVal.s btn), ("pressed", JVal.b p),
                ("timestamp", JVal.n ts)]
  | MouseEvent.scroll x y dx dy ts =>
      JVal.obj [("type", JVal.s "scroll"), ("x", JVal.n x), ("y", JVal.n y),
                ("dx", JVal.n dx), ("dy", JVal.n dy), ("timestamp", JVal.n ts)]

/-- Serialization of one key-event dict. -/
def keyboardEventJson : KeyboardEvent → JVal
  | KeyboardEvent.press key ts =>
      JVal.obj [("type", JVal.s "press"), ("key", keyFieldJson key),
                ("timestamp", JVal.n ts)]
  | KeyboardEvent.release key ts =>
      JVal.obj [("type", JVal.s "release"), ("key", keyFieldJson key),
                ("timestamp", JVal.n ts)]

/-- Serialization of the whole data_to_send dict: exactly the four keys
of the literal at the heart of send_data, in source order. -/
def batchJson (bt : Batch) : JVal :=
  JVal.obj [("session_id", JVal.s bt.session_id),
            ("user_id", JVal.n bt.user_id),
            ("mouse_data", JVal.arr (bt.mouse_data.map mouseEventJson)),
            ("keyboard_data", JVal.arr (bt.keyboard_data.map keyboardEventJson))]

/-
Concrete inputs used to evaluate the model. -/

/-- Key object of the printable key a: KeyCode with char set to "a". -/
def aKey : PKey := { charAttr := some (some "a"), name := "a" }

/-- Key object whose char attribute exists but is None, as delivered for
some non-printable keys: reading char succeeds and yields None. -/
def f1Key : PKey := { charAttr := some none, name := "Key.f1" }

/-- Worker that has captured exactly one pointer move. -/
def w1 : BackgroundWorker := on_move 0 0 0 (mkWorker "s" 1 defaultApiUrl)

/-- Worker of the acceptance scenario: session s1, user 1, one recorded
Move and one recorded Press of the printable key a. -/
def scenarioWorker (t0 t1 : Int) : BackgroundWorker :=
  on_press aKey t1 (on_move 10 20 t0 (mkWorker "s1" 1 defaultApiUrl))

/-- WindowsApp state before the first start signal: no worker yet. -/
def freshApp : WindowsAppState := { backgroundWorker := none }

/-- Pointer events delivered by the successful transmissions of a trace,
in transmission order. -/
def sentMouse (ps : List (Batch × Bool)) : List MouseEvent :=
  ((successes ps).map Batch.mouse_data).flatten

/-- Key events delivered by the successful transmissions of a trace, in
transmission order. -/
def sentKeys (ps : List (Batch × Bool)) : List KeyboardEvent :=
  ((successes ps).map Batch.keyboard_data).flatten

theorem sentMouse_nil : sentMouse [] = [] := rfl

theorem sentMouse_cons_true (bt : Batch) (ps : List (Batch × Bool)) :
    sentMouse ((bt, true) :: ps) = bt.mouse_data ++ sentMouse ps := by
  simp [sentMouse, successes]

theorem sentMouse_cons_false (bt : Batch) (ps : List (Batch × Bool)) :
    sentMouse ((bt, false) :: ps) = sentMouse ps := by
  simp [sentMouse, successes]

theorem sentKeys_nil : sentKeys [] = [] := rfl

theorem sentKeys_cons_true (bt : Batch) (ps : List (Batch × Bool)) :
    sentKeys ((bt, true) :: ps) = bt.keyboard_data ++ sentKeys ps := by
  simp [sentKeys, successes]

theorem sentKeys_cons_false (bt : Batch) (ps : List (Batch × Bool)) :
    sentKeys ((bt, false) :: ps) = sentKeys ps := by
  simp [sentKeys, successes]

/-- Conservation of the pointer stream: the successfully transmitted
batches, concatenated, followed by what is still buffered, reproduce the
full capture-ordered pointer stream.  Events of a failed POST stay in
the buffer, so nothing is lost and nothing successful is duplicated. -/
theorem run_mouse_conservation (ops : List Op) : ∀ w : BackgroundWorker,
    sentMouse (run w ops).2 ++ (run w ops).1.mouse_events =
      w.mouse_events ++ recordedMouse ops := by
  induction ops with
  | nil => intro w; simp [run, sentMouse_nil, recordedMouse]
  | cons op rest ih =>
    intro w
    cases op with
    | move x y ts =>
      have h := ih (on_move x y ts w)
      simp only [run, step]
      rw [h]
      simp [on_move, recordedMouse, opMouse]
    | click x y btn p ts =>
      have h := ih (on_click x y btn p ts w)
      simp only [run, step]
      rw [h]
      simp [on_click, recordedMouse, opMouse]
    | scroll x y dx dy ts =>
      have h := ih (on_scroll x y dx dy ts w)
      simp only [run, step]
      rw [h]
      simp [on_scroll, recordedMouse, opMouse]
    | press k ts =>
      have h := ih (on_press k ts w)
      simp only [run, step]
      rw [h]
      simp [on_press, recordedMouse, opMouse]
    | release k ts =>
      have h := ih (on_release k ts w)
      simp only [run, step]
      rw [h]
      simp [on_release, recordedMouse, opMouse]
    | flush ok =>
      by_cases he : w.mouse_events = [] ∧ w.keyboard_events = []
      · have h := ih w
        simp only [run, step, flushCycle, if_pos he, Option.map_none']
        rw [h]
        simp [recordedMouse, opMouse]
      · cases ok with
        | false =>
          have h := ih w
          simp only [run, step, flushCycle, if_neg he, Bool.false_eq_true,
            if_false, Option.map_some']
          rw [sentMouse_cons_false, h]
          simp [recordedMouse, opMouse]
        | true =>
          have h := ih { w with mouse_events := [], keyboard_events := [] }
          simp only [run, step, flushCycle, if_neg he, if_true,
            Option.map_some']
          rw [sentMouse_cons_true, List.append_assoc, h]
          simp [mkBatch, recordedMouse, opMouse]

/-- Conservation of the key stream, symmetric to the pointer stream. -/
theorem run_keys_conservation (ops : List Op) : ∀ w : BackgroundWorker,
    sentKeys (run w ops).2 ++ (run w ops).1.keyboard_events =
      w.keyboard_events ++ recordedKeys ops := by
  induction ops with
  | nil => intro w; simp [run, sentKeys_nil, recordedKeys]
  | cons op rest ih =>
    intro w
    cases op with
    | move x y ts =>
      have h := ih (on_move x y ts w)
      simp only [run, step]
      rw [h]
      simp [on_move, recordedKeys, opKey]
    | click x y btn p ts =>
      have h := ih (on_click x y btn p ts w)
      simp only [run, step]
      rw [h]
      simp [on_click, recordedKeys, opKey]
    | scroll x y dx dy ts =>
      have h := ih (on_scroll x y dx dy ts w)
      simp only [run, step]
      rw [h]
      simp [on_scroll, recordedKeys, opKey]
    | press k ts =>
      have h := ih (on_press k ts w)
      simp only [run, step]
      rw [h]
      simp [on_press, recordedKeys, opKey]
    | release k ts =>
      have h := ih (on_release k ts w)
      simp only [run, step]
      rw [h]
      simp [on_release, recordedKeys, opKey]
    | flush ok =>
      by_cases he : w.mouse_events = [] ∧ w.keyboard_events = []
      · have h := ih w
        simp only [run, step, flushCycle, if_pos he, Option.map_none']
        rw [h]
        simp [recordedKeys, opKey]
      · cases ok with
        | false =>
          have h := ih w
          simp only [run, step, flushCycle, if_neg he, Bool.false_eq_true,
            if_false, Option.map_some']
          rw [sentKeys_cons_false, h]
          simp [recordedKeys, opKey]
        | true =>
          have h := ih { w with mouse_events := [], keyboard_events := [] }
          simp only [run, step, flushCycle, if_neg he, if_true,
            Option.map_some']
          rw [sentKeys_cons_true, List.append_assoc, h]
          simp [mkBatch, recordedKeys, opKey]


/-- The session and user identifiers fixed at construction are never
modified by any capture callback or flush cycle. -/
theorem run_preserves_ids (ops : List Op) : ∀ w : BackgroundWorker,
    (run w ops).1.session_id = w.session_id ∧
      (run w ops).1.user_id = w.user_id := by
  induction ops with
  | nil => intro w; simp [run]
  | cons op rest ih =>
    intro w
    cases op with
    | move x y ts => simpa [run, step, on_move] using ih (on_move x y ts w)
    | click x y btn p ts =>
      simpa [run, step, on_click] using ih (on_click x y btn p ts w)
    | scroll x y dx dy ts =>
      simpa [run, step, on_scroll] using ih (on_scroll x y dx dy ts w)
    | press k ts => simpa [run, step, on_press] using ih (on_press k ts w)
    | release k ts =>
      simpa [run, step, on_release] using ih (on_release k ts w)
    | flush ok =>
      by_cases he : w.mouse_events = [] ∧ w.keyboard_events = []
      · simpa [run, step, flushCycle, if_pos he] using ih w
      · cases ok with
        | false =>
          simpa [run, step, flushCycle, if_neg he] using ih w
        | true =>
          simpa [run, step, flushCycle, if_neg he] using
            ih { w with mouse_events := [], keyboard_events := [] }

/-- Exit-time bounds for the loop iteration: started from a check at
time t not later than one interval past s, with enough fuel to reach s,
the loop exits at a check between s and s plus one interval. -/
theorem loopExitFrom_bounds : ∀ (fuel t s : Nat),
    s ≤ t + flushIntervalMs * fuel → t < s + flushIntervalMs →
    s ≤ loopExitFrom fuel t s ∧ loopExitFrom fuel t s < s + flushIntervalMs := by
  intro fuel
  induction fuel with
  | zero =>
    intro t s h1 h2
    simp only [loopExitFrom]
    simp only [flushIntervalMs] at h1 h2 ⊢
    omega
  | succ n ih =>
    intro t s h1 h2
    by_cases hst : s ≤ t
    · simp only [loopExitFrom, if_pos hst]
      exact ⟨hst, h2⟩
    · simp only [loopExitFrom, if_neg hst]
      apply ih
      · simp only [flushIntervalMs] at h1 ⊢
        omega
      · simp only [flushIntervalMs] at h2 ⊢
        omega

/-- The data thread exits at the first check at or after the stop
signal, hence never later than one full interval past it. -/
theorem threadExitTime_bounds (s : Nat) :
    s ≤ threadExitTime s ∧ threadExitTime s < s + flushIntervalMs := by
  simp only [threadExitTime]
  apply loopExitFrom_bounds
  · simp only [flushIntervalMs]
    omega
  · simp only [flushIntervalMs]
    omega

/-- Claim C1: the claim states that every recorded event appears in
exactly one transmitted batch, never in two.  Counterexample: a single
key press followed by a failed flush cycle and then a successful one;
both POSTed payloads contain the recorded event, so it appears in two
transmitted batches. -/
theorem c1_counterexample :
    recordedKeys [Op.press aKey 1, Op.flush false, Op.flush true] =
      [KeyboardEvent.press (some "a") 1] ∧
    (run (mkWorker "s" 1 defaultApiUrl)
          [Op.press aKey 1, Op.flush false, Op.flush true]).2.map
        (fun pb => pb.1.keyboard_data) =
      [[KeyboardEvent.press (some "a") 1],
       [KeyboardEvent.press (some "a") 1]] := by
  decide

/-- Claim C1 (amended): counting only the transmissions whose POST did
not raise, and together with the residual buffer, nothing is lost or
duplicated: for every trace of capture callbacks interleaved at cycle
granularity with flush wakeups, the concatenation of the successfully
transmitted pointer batches followed by the still-buffered pointer
events equals the capture-ordered pointer stream, and likewise for the
key stream; per-stream capture order is preserved within and across
batches.  Events of a cycle whose POST raises stay buffered and are
POSTed again later. -/
theorem c1_conservation (ops : List Op) (w : BackgroundWorker) :
    sentMouse (run w ops).2 ++ (run w ops).1.mouse_events =
      w.mouse_events ++ recordedMouse ops ∧
    sentKeys (run w ops).2 ++ (run w ops).1.keyboard_events =
      w.keyboard_events ++ recordedKeys ops :=
  ⟨run_mouse_conservation ops w, run_keys_conservation ops w⟩

/-- Claim C2: the claim states that the batch of a failed cycle is
discarded and never re-sent.  Counterexample: worker w1 holds one
recorded move; the POST of the first wakeup raises, the second wakeup
succeeds, and its transmission re-sends exactly the same event. -/
theorem c2_counterexample :
    (run w1 [Op.flush false, Op.flush true]).2.map
        (fun pb => pb.1.mouse_data) =
      [[MouseEvent.move 0 0 0], [MouseEvent.move 0 0 0]] ∧
    (run w1 [Op.flush false, Op.flush true]).2.map (fun pb => pb.2) =
      [false, true] := by
  decide

/-- Claim C2 (amended): on a failed transmission the exception is caught
and only logged; the cycle makes exactly one POST attempt (no retry
within the cycle) and the failure does not prevent the next transmission
from succeeding; but the buffers are not cleared, so the next cycle
re-sends the same batch rather than discarding it. -/
theorem c2_failure_policy (w : BackgroundWorker)
    (h : ¬(w.mouse_events = [] ∧ w.keyboard_events = [])) :
    (run w [Op.flush false, Op.flush true]).2 =
      [(mkBatch w, false), (mkBatch w, true)] ∧
    (run w [Op.flush false, Op.flush true]).1 =
      { w with mouse_events := [], keyboard_events := [] } := by
  constructor <;>
    simp only [run, step, flushCycle, if_neg h, Bool.false_eq_true, if_false,
      if_true, Option.map_some']

/-- Witness for c2_failure_policy at the concrete worker w1. -/
theorem c2_failure_policy_witness :
    (run w1 [Op.flush false, Op.flush true]).2 =
      [(mkBatch w1, false), (mkBatch w1, true)] ∧
    (run w1 [Op.flush false, Op.flush true]).1 =
      { w1 with mouse_events := [], keyboard_events := [] } :=
  c2_failure_policy w1 (by decide)

/-- Claim C3: the claim states the inter-cycle suspension is a
cancellable wait, interrupted at once by stop(), which therefore returns
well under one flush interval.  Counterexample: with the stop flag set
1 ms after the thread last checked it, the thread exits only at the next
check, the full 5000 ms boundary, so stop() blocks in the join for
4999 ms of the 5000 ms interval: time.sleep(5) is not interruptible by
the threading.Event and the whole remaining sleep elapses. -/
theorem c3_counterexample :
    stopLatency 1 = flushIntervalMs - 1 ∧
      threadExitTime 1 = flushIntervalMs := by
  decide

/-- Claim C3 (amended): the suspension is a plain time.sleep(5), not a
cancellable wait: the loop observes the stop flag only at iteration
boundaries, so stop() returns within one full flush interval of the
signal (a tight bound, reached up to 1 ms by the counterexample), not
immediately. -/
theorem c3_shutdown_latency (s : Nat) :
    stopLatency s < flushIntervalMs ∧ s ≤ threadExitTime s := by
  have h := threadExitTime_bounds s
  constructor
  · simp only [stopLatency]
    omega
  · exact h.1

/-- Claim C4: the claim states a second start() on the running Collector
is a safe no-op.  Counterexample: the second BWstart does not complete
normally: it raises RuntimeError when it restarts the mouse listener
thread (a Thread object can only be started once), after having already
cleared the stop event. -/
theorem c4_counterexample :
    (BWstart (BWstart newWorkerLife).1).2 = false := by
  decide

/-- Claim C4 (amended): BackgroundWorker.start has no already-running
guard: a second call raises RuntimeError from the listener restart,
though, because it raises before reaching the thread creation, it still
leaves exactly one listener pair and one flush thread active.  The
guarded no-op lives one level up: a second call of
WindowsApp.start_background_worker leaves the state unchanged, takes the
already-running branch, and exactly one worker with one active flush
thread and one running listener pair exists. -/
theorem c4_start_guard :
    (BWstart (BWstart newWorkerLife).1).2 = false ∧
    (BWstart (BWstart newWorkerLife).1).1.activeFlushThreads = 1 ∧
    (BWstart (BWstart newWorkerLife).1).1.mouseRunning = true ∧
    (BWstart (BWstart newWorkerLife).1).1.kbRunning = true ∧
    (start_background_worker (start_background_worker freshApp).1).1 =
      (start_background_worker freshApp).1 ∧
    (start_background_worker (start_background_worker freshApp).1).2 = false ∧
    (start_background_worker freshApp).1.backgroundWorker =
      some (BWstart newWorkerLife).1 ∧
    (BWstart newWorkerLife).1.activeFlushThreads = 1 := by
  decide

/-- Claim C5: the claim states stop() on an already-Stopped Collector is
always a safe no-op.  Counterexample: on a freshly constructed worker,
which is in the Stopped state with start never called, stop() raises
AttributeError, because self.data_thread is only assigned inside
start(). -/
theorem c5_counterexample : (BWstop newWorkerLife).2 = false := by
  decide

/-- Claim C5 (amended): a second stop() after a completed start and stop
cycle is a safe no-op: it raises nothing, changes no state, and the join
returns at once since the flush thread already exited; but stop() on a
never-started Collector, also a Stopped state, raises AttributeError. -/
theorem c5_stop_idempotent :
    BWstop (BWstop (BWstart newWorkerLife).1).1 =
      ((BWstop (BWstart newWorkerLife).1).1, true) ∧
    (BWstop newWorkerLife).2 = false := by
  decide

/-- Claim C6: the claim states that with zero events recorded between
two consecutive wakeups, the second wakeup sends nothing.
Counterexample: w1 holds one recorded move; the first wakeup POSTs and
the POST raises; with nothing recorded in between, the second wakeup
POSTs the retained batch again, so it does send. -/
theorem c6_counterexample :
    (flushCycle true (flushCycle false w1).2).1 = some (mkBatch w1) := by
  decide

/-- Claim C6 (amended): a wakeup that finds both buffers empty makes no
POST; and when the first of two consecutive wakeups did not fail, that
is its POST either succeeded or was skipped, zero recordings in between
leave the second wakeup silent.  Only a failed first wakeup re-sends. -/
theorem c6_idle_skip (w w2 : BackgroundWorker) (ok ok2 : Bool)
    (h : w.mouse_events = [] ∧ w.keyboard_events = []) :
    (flushCycle ok w).1 = none ∧
    (flushCycle ok2 (flushCycle true w2).2).1 = none := by
  constructor
  · simp [flushCycle, h]
  · by_cases he : w2.mouse_events = [] ∧ w2.keyboard_events = []
    · simp [flushCycle, he]
    · simp [flushCycle, he]

/-- Witness for c6_idle_skip: a fresh empty worker, and w1 for the
consecutive-wakeup part. -/
theorem c6_idle_skip_witness :
    (flushCycle true (mkWorker "s" 1 defaultApiUrl)).1 = none ∧
    (flushCycle true (flushCycle true w1).2).1 = none :=
  c6_idle_skip (mkWorker "s" 1 defaultApiUrl) w1 true true ⟨rfl, rfl⟩

/-- Claim C7: the claim states a key that does not map to a printable
character is recorded under its symbolic name, chosen by an explicit
printability branch.  Counterexample: f1Key carries a char attribute
whose value is None, so reading key.char succeeds and the event is
recorded with key None, not with the symbolic name string. -/
theorem c7_counterexample :
    (on_press f1Key 7 (mkWorker "s" 1 defaultApiUrl)).keyboard_events =
      [KeyboardEvent.press none 7] ∧
    KeyboardEvent.press none 7 ≠ KeyboardEvent.press (some f1Key.name) 7 := by
  decide

/-- Claim C7 (amended): the recorded key is chosen by attribute presence
through exception handling, not by printability: when the key object has
a char attribute its value is recorded verbatim, be it a printable
character or None; only when reading char raises AttributeError is the
symbolic name str(key) recorded. -/
theorem c7_key_normalization (c : Option String) (nm : String) (ts : Int)
    (w : BackgroundWorker) :
    (on_press { charAttr := some c, name := nm } ts w).keyboard_events =
      w.keyboard_events ++ [KeyboardEvent.press c ts] ∧
    (on_press { charAttr := none, name := nm } ts w).keyboard_events =
      w.keyboard_events ++ [KeyboardEvent.press (some nm) ts] ∧
    (on_release { charAttr := some c, name := nm } ts w).keyboard_events =
      w.keyboard_events ++ [KeyboardEvent.release c ts] ∧
    (on_release { charAttr := none, name := nm } ts w).keyboard_events =
      w.keyboard_events ++ [KeyboardEvent.release (some nm) ts] := by
  simp [on_press, on_release, keyOf]

/-- Claim C8: every transmitted batch carries exactly the four fields
session_id, user_id, mouse_data, keyboard_data, with both identifiers
the values fixed at construction; and the acceptance scenario: a worker
with session s1 and user 1 holding one recorded Move and one recorded
Press of the printable key a sends, on one successful flush cycle,
exactly one POST whose serialized body lists precisely those fields and
events, and both buffers are empty afterwards. -/
theorem c8_batch_shape (t0 t1 : Int) (ops : List Op) (w : BackgroundWorker)
    (ok : Bool) :
    ((run w ops).1.session_id = w.session_id ∧
      (run w ops).1.user_id = w.user_id) ∧
    (∀ bt : Batch, (flushCycle ok w).1 = some bt →
        bt.session_id = w.session_id ∧ bt.user_id = w.user_id) ∧
    (flushCycle true (scenarioWorker t0 t1)).1 =
      some { session_id := "s1", user_id := 1,
             mouse_data := [MouseEvent.move 10 20 t0],
             keyboard_data := [KeyboardEvent.press (some "a") t1] } ∧
    (flushCycle true (scenarioWorker t0 t1)).2.mouse_events = [] ∧
    (flushCycle true (scenarioWorker t0 t1)).2.keyboard_events = [] ∧
    batchJson { session_id := "s1", user_id := 1,
                mouse_data := [MouseEvent.move 10 20 t0],
                keyboard_data := [KeyboardEvent.press (some "a") t1] } =
      JVal.obj [("session_id", JVal.s "s1"), ("user_id", JVal.n 1),
        ("mouse_data", JVal.arr [JVal.obj [("type", JVal.s "move"),
            ("x", JVal.n 10), ("y", JVal.n 20), ("timestamp", JVal.n t0)]]),
        ("keyboard_data", JVal.arr [JVal.obj [("type", JVal.s "press"),
            ("key", JVal.s "a"), ("timestamp", JVal.n t1)]])] := by
  refine ⟨run_preserves_ids ops w, ?_, ?_, ?_, ?_, ?_⟩
  · intro bt hbt
    by_cases he : w.mouse_events = [] ∧ w.keyboard_events = []
    · simp [flushCycle, he] at hbt
    · cases ok with
      | false =>
        simp [flushCycle, he] at hbt
        simp [← hbt, mkBatch]
      | true =>
        simp [flushCycle, he] at hbt
        simp [← hbt, mkBatch]
  · simp [flushCycle, scenarioWorker, on_press, on_move, mkWorker, mkBatch,
      aKey, keyOf]
  · simp [flushCycle, scenarioWorker, on_press, on_move, mkWorker]
  · simp [flushCycle, scenarioWorker, on_press, on_move, mkWorker]
  · simp [batchJson, mouseEventJson, keyboardEventJson, keyFieldJson]

/-- Witness for c8_batch_shape: the scenario worker at concrete times,
with the hypothesis of the identifier conjunct discharged by computing
the POSTed batch. -/
theorem c8_batch_shape_witness :
    ({ session_id := "s1", user_id := 1,
       mouse_data := [MouseEvent.move 10 20 0],
       keyboard_data := [KeyboardEvent.press (some "a") 1] : Batch}).session_id =
      (scenarioWorker 0 1).session_id ∧
    ({ session_id := "s1", user_id := 1,
       mouse_data := [MouseEvent.move 10 20 0],
       keyboard_data := [KeyboardEvent.press (some "a") 1] : Batch}).user_id =
      (scenarioWorker 0 1).user_id :=
  (c8_batch_shape 0 1 [] (scenarioWorker 0 1) true).2.1
    { session_id := "s1", user_id := 1,
      mouse_data := [MouseEvent.move 10 20 0],
      keyboard_data := [KeyboardEvent.press (some "a") 1] }
    (by decide)

/-- Claim C9: when the POST of a cycle raises, both buffered lists are
left exactly as they were, because the two reassignments to empty lists
sit after the post call inside the try block; hence the next attempt
sends the whole retained payload again. -/
theorem c9_retention (w : BackgroundWorker) :
    (flushCycle false w).2 = w ∧
    (flushCycle true (flushCycle false w).2).1 = (flushCycle true w).1 ∧
    (∀ bt : Batch, (flushCycle false w).1 = some bt →
        bt.mouse_data = w.mouse_events ∧
          bt.keyboard_data = w.keyboard_events) := by
  have h2 : (flushCycle false w).2 = w := by
    by_cases he : w.mouse_events = [] ∧ w.keyboard_events = [] <;>
      simp [flushCycle, he]
  refine ⟨h2, by rw [h2], ?_⟩
  intro bt hbt
  by_cases he : w.mouse_events = [] ∧ w.keyboard_events = []
  · simp [flushCycle, he] at hbt
  · simp [flushCycle, he] at hbt
    simp [← hbt, mkBatch]

/-- Witness for c9_retention at the concrete worker w1. -/
theorem c9_retention_witness :
    (flushCycle false w1).2 = w1 ∧
    ((mkBatch w1).mouse_data = w1.mouse_events ∧
      (mkBatch w1).keyboard_data = w1.keyboard_events) :=
  ⟨(c9_retention w1).1, (c9_retention w1).2.2 (mkBatch w1) (by decide)⟩

/-- Claim C10: for a key object whose char attribute is present with
value None, on_press and on_release record an event whose key field is
None rather than the symbolic name of the key, because reading the
attribute succeeds and the except branch never runs. -/
theorem c10_none_char (nm : String) (ts : Int) (w : BackgroundWorker) :
    (on_press { charAttr := some none, name := nm } ts w).keyboard_events =
      w.keyboard_events ++ [KeyboardEvent.press none ts] ∧
    (on_release { charAttr := some none, name := nm } ts w).keyboard_events =
      w.keyboard_events ++ [KeyboardEvent.release none ts] ∧
    (none : Option String) ≠ some nm := by
  simp [on_press, on_release, keyOf]
